import Mathlib

/-!
Shallow embedding of the two core subsystems of MCServer-Packer:
the mod classifier (`src/deearth.py`) and the download engine
(`src/downloader.py`), together with theorems checking the
natural-language specification against this embedding.

File-system and network effects are passed in explicitly: each classified
file comes with an environment describing what the archive inspection,
the three registry lookups and the quarantine move would do for it, and
each download job comes with an oracle describing the outcome of every
HTTP attempt.  Machine integers are modelled as `Nat` with explicit
`% 2 ^ 32` where the Python code relies on 32-bit wrap-around.
-/

namespace MCPacker

/-! ## Classification cache (src/deearth.py, lines 18-27)

The cache is a JSON object mapping mod file names to verdict strings.
A Python `dict` is modelled as an association list with overwriting
insertion; `lookupKV` is membership test plus indexing. -/

abbrev Cache := List (String × String)

def lookupKV : Cache → String → Option String
  | [], _ => none
  | (k', v) :: rest, k => if k' = k then some v else lookupKV rest k

def insertKV : Cache → String → String → Cache
  | [], k, v => [(k, v)]
  | (k', v') :: rest, k, v =>
      if k' = k then (k, v) :: rest else (k', v') :: insertKV rest k v

/-! JSON documents, as produced by `json.loads`.  `load_deearth_cache`
returns whatever document the cache file holds when it parses. -/

inductive JVal
  | jnull
  | jbool (b : Bool)
  | jnum (n : Int)
  | jstr (s : String)
  | jarr (elems : List JVal)
  | jobj (fields : List (String × JVal))

def JVal.isObj : JVal → Bool
  | .jobj _ => true
  | _ => false

/-- State of the cache file on disk: absent, present but not valid JSON
(`json.loads` raises `JSONDecodeError`), or present holding document `v`. -/
inductive CacheFileState
  | absent
  | presentInvalid
  | present (v : JVal)

/-- `load_deearth_cache` (src/deearth.py lines 18-24): empty object when the
file is absent or `json.loads` raises `JSONDecodeError`; otherwise the parsed
document is returned unchanged, whatever its JSON type. -/
def load_deearth_cache : CacheFileState → JVal
  | .absent => .jobj []
  | .presentInvalid => .jobj []
  | .present v => v

/-! ## Fingerprint engine (src/deearth.py, lines 46-48)

`_calculate_murmur2_hash` strips the bytes CR, LF, TAB, SPACE and runs
`mmh3.hash(_, seed=1, signed=True)`, which is the 32-bit MurmurHash3
with a signed result.  Bytes are modelled as `List Nat`. -/

def stripWS (data : List Nat) : List Nat :=
  data.filter fun b => !(b == 13 || b == 10 || b == 9 || b == 32)

def rotl32 (x r : Nat) : Nat :=
  ((x <<< r) ||| (x >>> (32 - r))) % 2 ^ 32

def fmix32 (h0 : Nat) : Nat :=
  let h1 := h0 ^^^ (h0 >>> 16)
  let h2 := (h1 * 0x85ebca6b) % 2 ^ 32
  let h3 := h2 ^^^ (h2 >>> 13)
  let h4 := (h3 * 0xc2b2ae35) % 2 ^ 32
  h4 ^^^ (h4 >>> 16)

/-- Little-endian value of a 1-3 byte tail block. -/
def tailLE : List Nat → Nat
  | [] => 0
  | b :: rest => b + (tailLE rest <<< 8)

def mixK1 (k : Nat) : Nat :=
  let k1 := (k * 0xcc9e2d51) % 2 ^ 32
  let k2 := rotl32 k1 15
  (k2 * 0x1b873593) % 2 ^ 32

/-- Body and tail rounds of MurmurHash3 (32-bit) over a byte list. -/
def mmh3BodyTail (h : Nat) : List Nat → Nat
  | b0 :: b1 :: b2 :: b3 :: rest =>
      let k := (b0 ||| (b1 <<< 8) ||| (b2 <<< 16) ||| (b3 <<< 24)) % 2 ^ 32
      let h1 := h ^^^ mixK1 k
      let h2 := rotl32 h1 13
      mmh3BodyTail ((h2 * 5 + 0xe6546b64) % 2 ^ 32) rest
  | [] => h
  | tail => h ^^^ mixK1 (tailLE tail % 2 ^ 32)

def murmur3_32 (data : List Nat) (seed : Nat) : Nat :=
  let h := mmh3BodyTail (seed % 2 ^ 32) data
  fmix32 (h ^^^ (data.length % 2 ^ 32))

/-- Two's-complement reading of a 32-bit value (`signed=True`). -/
def toSigned32 (n : Nat) : Int :=
  if n < 2 ^ 31 then (n : Int) else (n : Int) - 2 ^ 32

/-- `_calculate_murmur2_hash` (src/deearth.py lines 46-48). -/
def calculate_murmur2_hash (data : List Nat) : Int :=
  toSigned32 (murmur3_32 (stripWS data) 1)

/-! ## Archive descriptors (src/deearth.py, lines 29-44)

`get_zip_info` returns `None` when the archive cannot be read, an empty
descriptor when no `mods.toml` / `fabric.mod.json` entry exists, and the
parsed forge-like or fabric-like metadata otherwise.  Only the keys the
classifier consults are modelled. -/

structure ForgeDep where
  /-- the dependency entry's `modId` key, if present -/
  target : Option String
  /-- the dependency entry's `side` key, if present -/
  side : Option String
deriving DecidableEq

inductive ModInfo
  /-- readable archive with no recognised descriptor entry (`type` is `''`) -/
  | emptyInfo
  /-- `mods.toml`: the `mods` array (each entry's optional `modId`) and the
  `dependencies` table, keyed by mod id -/
  | forge (mods : List (Option String)) (dependencies : List (String × List ForgeDep))
  /-- `fabric.mod.json`: optional `id` and optional `environment` -/
  | fabric (id : Option String) (environment : Option String)
deriving DecidableEq

/-- `modinfo_data['mods'][0].get('modId','')` / `modinfo_data.get('id','')`
(src/deearth.py lines 62-68); empty string when nothing applies. -/
def extract_mod_id : Option ModInfo → String
  | some (.forge (m :: _) _) => m.getD ""
  | some (.fabric id _) => id.getD ""
  | _ => ""

def KNOWN_UNIVERSAL_MODS : List String := ["geckolib", "supplementaries"]

/-- `dependencies.get(mod_id, [])`: table lookup with `[]` default. -/
def depsFor : List (String × List ForgeDep) → String → List ForgeDep
  | [], _ => []
  | (k', v) :: rest, k => if k' = k then v else depsFor rest k

/-- One forge dependency entry marks the mod client-only
(src/deearth.py line 141). -/
def forgeDepClient (d : ForgeDep) : Bool :=
  (d.target == some "minecraft" || d.target == some "forge"
    || d.target == some "neoforge") && d.side == some "CLIENT"

/-- `client == 'required' and server != 'required'`
(src/deearth.py lines 98 and 117). -/
def sideRule (client server : Option String) : Bool :=
  client == some "required" && !(server == some "required")

/-- Local-metadata client rule of phase 4, starting from a clean
`is_client_side` flag (src/deearth.py lines 137-146). -/
def localClientRule : ModInfo → Bool
  | .emptyInfo => false
  | .forge [] _ => false
  | .forge (m :: _) deps => (depsFor deps (m.getD "")).any forgeDepClient
  | .fabric _ envf => envf == some "client"

/-! ## Registry responses and the per-file environment -/

/-- Outcome of a registry lookup: an exception anywhere inside the `try`,
a non-200 status on the identifying request, or a successful pair of
requirement flags (`client_side`/`server_side` for Modrinth,
`client`/`server` for the DeEarth API; absent keys are `none`). -/
inductive RegResp
  | exc
  | notFound
  | found (client server : Option String)
deriving DecidableEq

/-- Outcome of the CurseForge fingerprint `POST`: an exception (transport
failure or missing JSON keys), or a status code with the parsed
`data.exactMatches` id list. -/
inductive CFResp
  | exc
  | status (code : Nat) (exactMatches : List Int)
deriving DecidableEq

/-- The mod id the fingerprint phase logs: only on status 200 with a
non-empty `exactMatches` (src/deearth.py lines 81-83). -/
def cfLog : CFResp → Option Int
  | .status 200 (i :: _) => some i
  | _ => none

/-- Everything the outside world would answer for one mod file:
the archive inspection, the three registry lookups, and whether a
`shutil.move` into the quarantine directory would succeed. -/
structure FileEnv where
  zipInfo : Option ModInfo
  cfResp : CFResp
  mrResp : RegResp
  deResp : RegResp
  moveOk : Bool

/-- Result of the registry/metadata cascade: final cache, whether the file
was moved to quarantine, how many HTTP requests were issued, and the
returned value — `Except.error` models an exception escaping `deearth`. -/
structure CoreOut where
  cache : Cache
  moved : Bool
  requests : Nat
  outcome : Except Unit (Option String)

structure DeearthResult where
  cache : Cache
  moved : Bool
  requests : Nat
  /-- fingerprint match id written to the debug log, never decisive -/
  fpLog : Option Int
  outcome : Except Unit (Option String)

/-- Phase-4 epilogue (src/deearth.py lines 148-156): on a client verdict the
cache is set to CLIENT and the move attempted; a failing move raises inside
the `try` of line 136, is caught at line 152, and control falls through to
line 155 which overwrites the entry with UNIVERSAL. -/
def finishPhase4 (name : String) (isClient mv : Bool) (c : Cache) (reqs : Nat) : CoreOut :=
  if isClient then
    if mv then ⟨insertKV c name "CLIENT", true, reqs, .ok (some name)⟩
    else ⟨insertKV (insertKV c name "CLIENT") name "UNIVERSAL", false, reqs, .ok none⟩
  else ⟨insertKV c name "UNIVERSAL", false, reqs, .ok none⟩

/-- Phase 4, local metadata (src/deearth.py lines 129-156).  `isClient0` is
the `is_client_side` flag as it stands when the phase is entered (it survives
a caught move failure in phase 2 or 3). -/
def phase4 (name : String) (zi : Option ModInfo) (mv isClient0 : Bool)
    (c : Cache) (reqs : Nat) : CoreOut :=
  match zi with
  | none => ⟨insertKV c name "UNKNOWN", false, reqs, .ok none⟩
  | some .emptyInfo => ⟨insertKV c name "UNIVERSAL", false, reqs, .ok none⟩
  | some (.forge mods deps) =>
      let isClient :=
        match mods with
        | [] => isClient0
        | m :: _ => isClient0 || (depsFor deps (m.getD "")).any forgeDepClient
      finishPhase4 name isClient mv c reqs
  | some (.fabric _ envf) =>
      finishPhase4 name (isClient0 || envf == some "client") mv c reqs

/-- Phase 3, DeEarth API (src/deearth.py lines 108-127): skipped when the
mod id is empty; a non-200 status or an exception falls through to phase 4;
a failing move raises inside the `try`, is caught at line 126, and control
falls through to phase 4 with the flag and the CLIENT cache entry kept. -/
def phase3 (name : String) (zi : Option ModInfo) (de : RegResp) (mv : Bool)
    (mod_id : String) (isClient0 : Bool) (c : Cache) (reqs : Nat) : CoreOut :=
  if mod_id = "" then phase4 name zi mv isClient0 c reqs
  else
    match de with
    | .found cs ss =>
        let isClient := isClient0 || sideRule cs ss
        let c2 := insertKV c name (if isClient then "CLIENT" else "UNIVERSAL")
        if isClient then
          if mv then ⟨c2, true, reqs + 1, .ok (some name)⟩
          else phase4 name zi mv true c2 (reqs + 1)
        else ⟨c2, false, reqs + 1, .ok none⟩
    | _ => phase4 name zi mv isClient0 c (reqs + 1)

/-- Phase 2, Modrinth API (src/deearth.py lines 87-106): the `sha1` lookup
plus, on a 200, the project fetch (two requests); any exception and any
non-200 status fall through to phase 3; a failing move raises inside the
`try`, is caught at line 105, and control falls through to phase 3 with
`is_client_side` still `True` and the CLIENT entry already cached.
The fingerprint request of phase 1 is counted here (first request). -/
def phase2 (name : String) (zi : Option ModInfo) (mr de : RegResp) (mv : Bool)
    (mod_id : String) (c : Cache) : CoreOut :=
  match mr with
  | .found cs ss =>
      let isClient := sideRule cs ss
      let c2 := insertKV c name (if isClient then "CLIENT" else "UNIVERSAL")
      if isClient then
        if mv then ⟨c2, true, 3, .ok (some name)⟩
        else phase3 name zi de mv mod_id true c2 3
      else ⟨c2, false, 3, .ok none⟩
  | _ => phase3 name zi de mv mod_id false c 2

/-- `deearth` (src/deearth.py lines 50-156).  Step 1: a cached name
short-circuits — CLIENT moves the file (a failing move here is outside any
`try` and the exception escapes `deearth`), anything else is a no-op.
Step 2: a known-universal mod id records UNIVERSAL with no network traffic.
Otherwise the fingerprint request is issued (its response only feeds the
debug log, recorded in `fpLog`) and the cascade of phases 2-4 runs. -/
def deearth (name : String) (env : FileEnv) (c : Cache) : DeearthResult :=
  match lookupKV c name with
  | some v =>
      if v = "CLIENT" then
        if env.moveOk then ⟨c, true, 0, none, .ok (some name)⟩
        else ⟨c, false, 0, none, .error ()⟩
      else ⟨c, false, 0, none, .ok none⟩
  | none =>
      if extract_mod_id env.zipInfo ∈ KNOWN_UNIVERSAL_MODS then
        ⟨insertKV c name "UNIVERSAL", false, 0, none, .ok none⟩
      else
        let core := phase2 name env.zipInfo env.mrResp env.deResp env.moveOk
          (extract_mod_id env.zipInfo) c
        ⟨core.cache, core.moved, core.requests, cfLog env.cfResp, core.outcome⟩

/-- `deearth_main` (src/deearth.py lines 158-194): classify every jar file
against the shared cache and collect the names of the relocated mods; one
result per file.  An exception escaping `deearth` propagates through
`asyncio.gather`, so `deearth_main` raises and `save_deearth_cache` never
runs — modelled by `Except.error`.  Each file's environment is supplied by
`envs`; the result carries the relocated names, the final cache (the one
`save_deearth_cache` would write) and the total number of HTTP requests. -/
def deearth_main (envs : String → FileEnv) (files : List String) (c : Cache) :
    Except Unit (List String × Cache × Nat) :=
  match files with
  | [] => .ok ([], c, 0)
  | f :: rest =>
      let r := deearth f (envs f) c
      match r.outcome with
      | .error e => .error e
      | .ok res =>
          match deearth_main envs rest r.cache with
          | .error e => .error e
          | .ok (names, c', reqs) =>
              .ok ((match res with | some n => n :: names | none => names),
                c', r.requests + reqs)

/-! ## Download engine (src/downloader.py)

String helpers: Python's `str.startswith` and `str.replace` (the latter
replaces every non-overlapping occurrence, left to right).  Both are written
by structural recursion over the character list so that concrete instances
reduce inside the kernel.  `replaceChars` takes the string length as fuel;
call sites always use a non-empty pattern. -/

def strStarts (s pre : String) : Bool :=
  pre.data.isPrefixOf s.data

def replaceChars (pat rep : List Char) : Nat → List Char → List Char
  | _, [] => []
  | 0, l => l
  | fuel + 1, c :: rest =>
      if pat.isPrefixOf (c :: rest) then
        rep ++ replaceChars pat rep fuel ((c :: rest).drop pat.length)
      else c :: replaceChars pat rep fuel rest

def strReplace (s pat rep : String) : String :=
  if pat = "" then s else ⟨replaceChars pat.data rep.data s.data.length s.data⟩

/-- Mirror constants (src/constants.py lines 11-12): both mirrors are the
same host. -/
def CF_MIRROR_URL : String := "https://mod.mcimirror.top"

def MR_MIRROR_URL : String := "https://mod.mcimirror.top"

structure DLConfig where
  retries : Nat
  use_mirror : Bool

/-- `config.download_retries` defaults to 3 and `use_mirror` to `True`
(src/config.py lines 14 and 29). -/
def defaultDLConfig : DLConfig := ⟨3, true⟩

/-- Mirror-to-origin fallback of the `except httpx.HTTPStatusError` handler
(src/downloader.py lines 42-55): `some official` means a rewritten URL is
retried immediately (`continue`), `none` means the ordinary failure path
runs.  Structure follows the source: the Modrinth branch is checked first,
then the CurseForge branch behind the `/curseforge` prefix. -/
def mirror_fallback (cfg : DLConfig) (url : String) : Option String :=
  if cfg.use_mirror && (strStarts url CF_MIRROR_URL || strStarts url MR_MIRROR_URL) then
    let official :=
      if strStarts url MR_MIRROR_URL then
        strReplace url MR_MIRROR_URL "https://cdn.modrinth.com"
      else if strStarts url (CF_MIRROR_URL ++ "/curseforge") then
        strReplace url CF_MIRROR_URL "https://edge.forgecdn.net"
      else ""
    if official ≠ "" then some official else none
  else none

/-- Outcome of one streaming attempt at a given attempt index and URL:
success, an HTTP error status (`raise_for_status`), or any other failure
(transport error, file-system error inside the `try`, ...). -/
inductive AttemptRes
  | success
  | httpError (status : Nat)
  | netError
deriving DecidableEq

/-- Observable events of one job's transfer loop. -/
inductive Ev
  | request (url : String)
  | sleep (secs : Nat)
deriving DecidableEq

/-- The `for attempt in range(retries)` loop of `download_worker`
(src/downloader.py lines 26-67).  `remaining` counts the loop iterations
left (the wrapper starts it at `cfg.retries`, keeping the invariant
`attempt + remaining = cfg.retries`); `attempt` is the 0-based loop
variable the source uses for the backoff and the `retries - 1` test.
Mirror fallback `continue`s with the rewritten URL and no sleep;
an ordinary failure sleeps `2 ^ attempt` seconds when attempts remain. -/
def download_worker_from (cfg : DLConfig) (oracle : Nat → String → AttemptRes) :
    Nat → Nat → String → List Ev × Bool
  | 0, _, _ => ([], false)
  | remaining + 1, attempt, url =>
      match oracle attempt url with
      | .success => ([.request url], true)
      | .httpError _ =>
          match mirror_fallback cfg url with
          | some official =>
              let r := download_worker_from cfg oracle remaining (attempt + 1) official
              (.request url :: r.1, r.2)
          | none =>
              if attempt < cfg.retries - 1 then
                let r := download_worker_from cfg oracle remaining (attempt + 1) url
                (.request url :: .sleep (2 ^ attempt) :: r.1, r.2)
              else ([.request url], false)
      | .netError =>
          if attempt < cfg.retries - 1 then
            let r := download_worker_from cfg oracle remaining (attempt + 1) url
            (.request url :: .sleep (2 ^ attempt) :: r.1, r.2)
          else ([.request url], false)

def download_worker (cfg : DLConfig) (oracle : Nat → String → AttemptRes)
    (url : String) : List Ev × Bool :=
  download_worker_from cfg oracle cfg.retries 0 url

def isReq : Ev → Bool
  | .request _ => true
  | .sleep _ => false

def countRequests (evs : List Ev) : Nat :=
  evs.countP isReq

/-! Batch download (src/downloader.py lines 69-110). -/

structure Job where
  url : String
  dest : String
  size : Option Nat

/-- Per-job outcome the batch reports: destination already on disk,
transfer finished (successfully or after exhausting retries), or an
exception caught and logged by `safe_download`. -/
inductive Outcome
  | skipped
  | completed (success : Bool) (events : List Ev)
  | caught (msg : String)
deriving DecidableEq

/-- External world of one batch: whether each destination exists, the
per-job attempt oracle, and an optional exception injected by the
progress/queue machinery around the worker call (anything unexpected the
`except` of `safe_download` would catch). -/
structure BatchEnv where
  destExists : String → Bool
  oracle : String → Nat → String → AttemptRes
  unexpected : String → Option String

/-- Body of `safe_download`'s `try` (src/downloader.py lines 90-100):
skip when the destination exists, else run the worker. -/
def safe_download_body (cfg : DLConfig) (env : BatchEnv) (job : Job) :
    Except String Outcome :=
  match env.unexpected job.dest with
  | some e => .error e
  | none =>
      if env.destExists job.dest then .ok .skipped
      else
        let r := download_worker cfg (env.oracle job.dest) job.url
        .ok (.completed r.2 r.1)

/-- `safe_download` (src/downloader.py lines 88-107): any exception from the
body is caught and logged (line 101-102), never re-raised. -/
def safe_download (cfg : DLConfig) (env : BatchEnv) (job : Job) : Outcome :=
  match safe_download_body cfg env job with
  | .ok o => o
  | .error e => .caught e

/-- `fast_download` (src/downloader.py lines 23-110): one `safe_download`
task per job, joined by `asyncio.gather`. -/
def fast_download (cfg : DLConfig) (env : BatchEnv) (jobs : List Job) : List Outcome :=
  jobs.map (safe_download cfg env)

/-! Single-shot fetch (src/downloader.py lines 112-120). -/

structure XEnv where
  destExists : Bool
  destName : String
  /-- what `async_client.get` + `raise_for_status` would yield: the response
  body, or the exception text of any failure -/
  fetchResult : Except String (List Nat)

structure XResult where
  requests : Nat
  written : Option (List Nat)
  outcome : Except String Unit

/-- `x_fast_download`: a no-op when the destination exists; otherwise one
request, writing the body on success and raising `DownloaderError` on any
failure. -/
def x_fast_download (env : XEnv) : XResult :=
  if env.destExists then ⟨0, none, .ok ()⟩
  else
    match env.fetchResult with
    | .ok content => ⟨1, some content, .ok ()⟩
    | .error e => ⟨1, none, .error ("下载失败 " ++ env.destName ++ ": " ++ e)⟩

/-! ## Theorems -/

@[simp] theorem isReq_request (u : String) : isReq (.request u) = true := rfl

@[simp] theorem isReq_sleep (s : Nat) : isReq (.sleep s) = false := rfl

theorem lookupKV_insertKV_self (c : Cache) (k v : String) :
    lookupKV (insertKV c k v) k = some v := by
  induction c with
  | nil => simp [insertKV, lookupKV]
  | cons p rest ih =>
      obtain ⟨k', v'⟩ := p
      by_cases h : k' = k <;> simp [insertKV, lookupKV, h, ih]

theorem lookupKV_insertKV_ne (c : Cache) (k v j : String) (h : j ≠ k) :
    lookupKV (insertKV c k v) j = lookupKV c j := by
  have hkj : ¬k = j := fun hh => h hh.symm
  induction c with
  | nil => simp [insertKV, lookupKV, hkj]
  | cons p rest ih =>
      obtain ⟨k', v'⟩ := p
      by_cases hk : k' = k
      · subst hk
        simp [insertKV, lookupKV, hkj]
      · simp [insertKV, lookupKV, hk, ih]

theorem lookupKV_insertKV_cases {c : Cache} {k v j w : String}
    (h : lookupKV (insertKV c k v) j = some w) :
    (j = k ∧ w = v) ∨ lookupKV c j = some w := by
  induction c with
  | nil =>
      simp only [insertKV, lookupKV] at h
      split at h
      · rename_i heq
        exact Or.inl ⟨heq.symm, (Option.some.inj h).symm⟩
      · exact absurd h (by simp)
  | cons p rest ih =>
      obtain ⟨k', v'⟩ := p
      by_cases hk : k' = k
      · subst hk
        simp only [insertKV, if_pos rfl, lookupKV] at h
        split at h
        · rename_i heq
          exact Or.inl ⟨heq.symm, (Option.some.inj h).symm⟩
        · rename_i hne
          refine Or.inr ?_
          simpa [lookupKV, hne] using h
      · simp only [insertKV, if_neg hk, lookupKV] at h
        split at h
        · rename_i heq
          refine Or.inr ?_
          simpa [lookupKV, heq] using h
        · rename_i hne
          rcases ih h with h1 | h2
          · exact Or.inl h1
          · refine Or.inr ?_
            simpa [lookupKV, hne] using h2

/-- C7: the cache-load contract fails on valid JSON that is not an object —
a cache file holding the document `[]` is parsed successfully and returned
as a JSON array, not as a mapping, so load does not return a mapping for
every file-system and content state. -/
theorem c7_counterexample :
    load_deearth_cache (.present (.jarr [])) = .jarr [] ∧
      (JVal.jarr []).isObj = false :=
  ⟨rfl, rfl⟩

/-- C7 (amended): the load operation returns an empty mapping when the cache
file is absent and when its content fails JSON parsing; when the content
parses, the parsed document is returned unchanged — it is a mapping only if
that document is a JSON object. -/
theorem c7_amended_load_contract (s : CacheFileState) :
    (s = .absent → load_deearth_cache s = .jobj []) ∧
    (s = .presentInvalid → load_deearth_cache s = .jobj []) ∧
    (∀ v, s = .present v → load_deearth_cache s = v) := by
  refine ⟨?_, ?_, ?_⟩
  · rintro rfl; rfl
  · rintro rfl; rfl
  · intro v h; subst h; rfl

theorem c7_witness : load_deearth_cache .absent = .jobj [] :=
  (c7_amended_load_contract .absent).1 rfl

theorem stripWS_idem (b : List Nat) : stripWS (stripWS b) = stripWS b := by
  simp [stripWS, List.filter_filter]

/-- C8: `_calculate_murmur2_hash` is invariant under pre-stripping the
whitespace bytes {CR, LF, TAB, SPACE}, and it is by definition the seed-1
signed 32-bit MurmurHash3 of the input with those bytes removed (a pure
function, hence stable across repeated calls on the same bytes). -/
theorem c8_normalized_hash (b : List Nat) :
    calculate_murmur2_hash b = calculate_murmur2_hash (stripWS b) ∧
    calculate_murmur2_hash b = toSigned32 (murmur3_32 (stripWS b) 1) := by
  constructor
  · unfold calculate_murmur2_hash
    rw [stripWS_idem]
  · rfl

/-- C9: the CurseForge fingerprint (hash-registry) lookup never contributes
to classification — two runs of `deearth` whose environments differ only in
the fingerprint response (match, no match, error status, or exception)
produce the same cache, the same relocation, the same request count and the
same returned value; only the logged match id may differ. -/
theorem c9_fingerprint_never_decisive (name : String) (c : Cache)
    (zi : Option ModInfo) (mr de : RegResp) (mv : Bool) (cf₁ cf₂ : CFResp) :
    (deearth name ⟨zi, cf₁, mr, de, mv⟩ c).cache
        = (deearth name ⟨zi, cf₂, mr, de, mv⟩ c).cache ∧
    (deearth name ⟨zi, cf₁, mr, de, mv⟩ c).moved
        = (deearth name ⟨zi, cf₂, mr, de, mv⟩ c).moved ∧
    (deearth name ⟨zi, cf₁, mr, de, mv⟩ c).requests
        = (deearth name ⟨zi, cf₂, mr, de, mv⟩ c).requests ∧
    (deearth name ⟨zi, cf₁, mr, de, mv⟩ c).outcome
        = (deearth name ⟨zi, cf₂, mr, de, mv⟩ c).outcome := by
  cases h : lookupKV c name with
  | some v => simp [deearth, h]
  | none =>
      by_cases h2 : extract_mod_id zi ∈ KNOWN_UNIVERSAL_MODS <;>
        simp [deearth, h, h2]

/-- C10: the single-shot fetch primitive is a no-op when the destination
already exists — no request, nothing written, normal return — whatever the
network would have answered. -/
theorem c10_existing_dest_noop (env : XEnv) (h : env.destExists = true) :
    x_fast_download env = ⟨0, none, .ok ()⟩ := by
  simp [x_fast_download, h]

theorem c10_witness :
    x_fast_download ⟨true, "f.jar", .error "boom"⟩ = ⟨0, none, .ok ()⟩ :=
  c10_existing_dest_noop ⟨true, "f.jar", .error "boom"⟩ rfl

/-- C5: with the shipped constants the two mirror prefixes are the identical
string, so the Modrinth branch captures every mirror URL: a CurseForge-style
mirror URL (under the `/curseforge` prefix) is rewritten to
`cdn.modrinth.com`, never to `edge.forgecdn.net` as the dead second branch
intends. -/
theorem c5_mirror_rewrite_bug :
    mirror_fallback defaultDLConfig
        "https://mod.mcimirror.top/curseforge/files/1/2/a.jar"
      = some "https://cdn.modrinth.com/curseforge/files/1/2/a.jar" ∧
    mirror_fallback defaultDLConfig
        "https://mod.mcimirror.top/curseforge/files/1/2/a.jar"
      ≠ some "https://edge.forgecdn.net/files/1/2/a.jar" := by
  constructor
  · rfl
  · decide

/-- C6: the batch download returns exactly one outcome per job and converts
any exception escaping a job's body into a logged `caught` outcome instead
of raising; only the single-shot fetch primitive `x_fast_download` raises
(returns an error outcome) on failure. -/
theorem c6_batch_isolation (cfg : DLConfig) (env : BatchEnv) (jobs : List Job) :
    (fast_download cfg env jobs).length = jobs.length ∧
    (∀ job e, safe_download_body cfg env job = .error e →
      safe_download cfg env job = .caught e) ∧
    (∀ xe : XEnv, xe.destExists = false → ∀ e, xe.fetchResult = .error e →
      (x_fast_download xe).outcome
        = .error ("下载失败 " ++ xe.destName ++ ": " ++ e)) := by
  refine ⟨by simp [fast_download], ?_, ?_⟩
  · intro job e h
    simp [safe_download, h]
  · intro xe h1 e h2
    simp [x_fast_download, h1, h2]

theorem c6_witness :
    (fast_download ⟨3, true⟩
        ⟨fun _ => false, fun _ _ _ => .netError, fun _ => none⟩
        [⟨"https://x/a.jar", "a.jar", none⟩]).length = 1 ∧
    (x_fast_download ⟨false, "a.jar", .error "boom"⟩).outcome
      = .error ("下载失败 " ++ "a.jar" ++ ": " ++ "boom") :=
  ⟨(c6_batch_isolation ⟨3, true⟩
      ⟨fun _ => false, fun _ _ _ => .netError, fun _ => none⟩
      [⟨"https://x/a.jar", "a.jar", none⟩]).1,
   (c6_batch_isolation ⟨3, true⟩
      ⟨fun _ => false, fun _ _ _ => .netError, fun _ => none⟩ []).2.2
      ⟨false, "a.jar", .error "boom"⟩ rfl "boom" rfl⟩

theorem phase4_no_rule_universal (name : String) (mi : ModInfo) (mv : Bool)
    (c : Cache) (reqs : Nat) (h : localClientRule mi = false) :
    phase4 name (some mi) mv false c reqs
      = ⟨insertKV c name "UNIVERSAL", false, reqs, .ok none⟩ := by
  cases mi with
  | emptyInfo => rfl
  | forge mods deps =>
      cases mods with
      | nil => simp [phase4, finishPhase4]
      | cons m rest =>
          simp only [localClientRule] at h
          simp [phase4, finishPhase4, h]
  | fabric id envf =>
      simp only [localClientRule] at h
      simp [phase4, finishPhase4, h]

/-- C2: with no cache entry, no decisive registry signal, and a readable
archive whose fabric descriptor has `environment = "server"`, the recorded
verdict is UNIVERSAL — not UNKNOWN as the claim requires for every
no-signal case with an unmatched descriptor. -/
theorem c2_counterexample :
    lookupKV (deearth "n.jar"
        ⟨some (.fabric (some "m") (some "server")), .exc, .exc, .exc, true⟩
        []).cache "n.jar" = some "UNIVERSAL" ∧
    lookupKV (deearth "n.jar"
        ⟨some (.fabric (some "m") (some "server")), .exc, .exc, .exc, true⟩
        []).cache "n.jar" ≠ some "UNKNOWN" :=
  ⟨rfl, by decide⟩

/-- C2 (amended): with no cache entry and no decisive registry signal, the
verdict UNKNOWN is recorded exactly when the archive carries no readable
descriptor (`get_zip_info` returned `None`); when the archive is readable
and neither the forge-like nor the fabric-like client rule matches, the
recorded verdict is UNIVERSAL instead. -/
theorem c2_amended_verdicts (name : String) (c : Cache) (env : FileEnv)
    (hc : lookupKV c name = none)
    (hmr : env.mrResp = .exc ∨ env.mrResp = .notFound)
    (hde : env.deResp = .exc ∨ env.deResp = .notFound) :
    (env.zipInfo = none →
      lookupKV (deearth name env c).cache name = some "UNKNOWN") ∧
    (∀ mi, env.zipInfo = some mi → localClientRule mi = false →
      lookupKV (deearth name env c).cache name = some "UNIVERSAL") := by
  obtain ⟨zi, cf, mr, de, mv⟩ := env
  simp only at hmr hde
  constructor
  · rintro rfl
    have hk0 : ¬("" ∈ KNOWN_UNIVERSAL_MODS) := by decide
    rcases hmr with rfl | rfl <;>
      simp [deearth, hc, hk0, extract_mod_id, phase2, phase3, phase4,
        lookupKV_insertKV_self]
  · rintro mi rfl hrule
    by_cases hknown : extract_mod_id (some mi) ∈ KNOWN_UNIVERSAL_MODS
    · simp [deearth, hc, hknown, lookupKV_insertKV_self]
    · rcases hmr with rfl | rfl <;> rcases hde with rfl | rfl <;>
        · simp only [deearth, hc]
          rw [if_neg hknown]
          by_cases hmid : extract_mod_id (some mi) = "" <;>
            simp [phase2, phase3, hmid, phase4_no_rule_universal, hrule,
              lookupKV_insertKV_self]

theorem c2_witness :
    lookupKV (deearth "a.jar" ⟨none, .exc, .exc, .exc, true⟩ []).cache "a.jar"
      = some "UNKNOWN" :=
  (c2_amended_verdicts "a.jar" [] ⟨none, .exc, .exc, .exc, true⟩ rfl
    (Or.inl rfl) (Or.inl rfl)).1 rfl

theorem insertKV_no_error {c : Cache} {name v k : String}
    (h : lookupKV (insertKV c name v) k = some "ERROR") (hv : ¬("ERROR" = v)) :
    lookupKV c k = some "ERROR" := by
  rcases lookupKV_insertKV_cases h with ⟨_, hw⟩ | h2
  · exact absurd hw hv
  · exact h2

theorem finishPhase4_no_error {name : String} {ic mv : Bool} {c : Cache}
    {reqs : Nat} {k : String}
    (h : lookupKV (finishPhase4 name ic mv c reqs).cache k = some "ERROR") :
    lookupKV c k = some "ERROR" := by
  unfold finishPhase4 at h
  split_ifs at h <;>
    first
    | exact insertKV_no_error h (by decide)
    | exact insertKV_no_error (insertKV_no_error h (by decide)) (by decide)

theorem phase4_no_error {name : String} {zi : Option ModInfo} {mv ic : Bool}
    {c : Cache} {reqs : Nat} {k : String}
    (h : lookupKV (phase4 name zi mv ic c reqs).cache k = some "ERROR") :
    lookupKV c k = some "ERROR" := by
  cases zi with
  | none => exact insertKV_no_error h (by decide)
  | some mi =>
      cases mi with
      | emptyInfo => exact insertKV_no_error h (by decide)
      | forge mods deps =>
          cases mods with
          | nil => exact finishPhase4_no_error h
          | cons m rest => exact finishPhase4_no_error h
      | fabric id envf => exact finishPhase4_no_error h

theorem phase3_no_error {name : String} {zi : Option ModInfo} {de : RegResp}
    {mv : Bool} {mod_id : String} {ic : Bool} {c : Cache} {reqs : Nat} {k : String}
    (h : lookupKV (phase3 name zi de mv mod_id ic c reqs).cache k = some "ERROR") :
    lookupKV c k = some "ERROR" := by
  cases de with
  | exc =>
      simp only [phase3] at h
      split_ifs at h <;> exact phase4_no_error h
  | notFound =>
      simp only [phase3] at h
      split_ifs at h <;> exact phase4_no_error h
  | found cs ss =>
      simp only [phase3] at h
      split_ifs at h <;>
        first
        | exact phase4_no_error h
        | exact insertKV_no_error h (by decide)
        | exact insertKV_no_error (phase4_no_error h) (by decide)

theorem phase2_no_error {name : String} {zi : Option ModInfo} {mr de : RegResp}
    {mv : Bool} {mod_id : String} {c : Cache} {k : String}
    (h : lookupKV (phase2 name zi mr de mv mod_id c).cache k = some "ERROR") :
    lookupKV c k = some "ERROR" := by
  cases mr with
  | exc =>
      simp only [phase2] at h
      exact phase3_no_error h
  | notFound =>
      simp only [phase2] at h
      exact phase3_no_error h
  | found cs ss =>
      simp only [phase2] at h
      split_ifs at h <;>
        first
        | exact phase3_no_error h
        | exact insertKV_no_error h (by decide)
        | exact insertKV_no_error (phase3_no_error h) (by decide)

theorem deearth_no_error {name : String} {env : FileEnv} {c : Cache} {k : String}
    (h : lookupKV (deearth name env c).cache k = some "ERROR") :
    lookupKV c k = some "ERROR" := by
  obtain ⟨zi, cf, mr, de, mv⟩ := env
  simp only [deearth] at h
  cases hl : lookupKV c name with
  | some v =>
      rw [hl] at h
      simp only at h
      split_ifs at h <;> exact h
  | none =>
      rw [hl] at h
      simp only at h
      split_ifs at h
      · exact insertKV_no_error h (by decide)
      · exact phase2_no_error h

/-- C1: an unhandled exception is possible (the quarantine move of a
cache-hit CLIENT file, outside every `try`); when it happens the verdict
ERROR is not recorded — the cache is unchanged — and the batch operation
does not return a per-file result: `deearth_main` raises (so the cache is
never saved), contradicting the claim on all three counts. -/
theorem c1_counterexample :
    (deearth "a.jar" ⟨none, .exc, .exc, .exc, false⟩
        [("a.jar", "CLIENT")]).outcome = .error () ∧
    (deearth "a.jar" ⟨none, .exc, .exc, .exc, false⟩
        [("a.jar", "CLIENT")]).cache = [("a.jar", "CLIENT")] ∧
    deearth_main (fun _ => ⟨none, .exc, .exc, .exc, false⟩)
        ["a.jar", "b.jar"] [("a.jar", "CLIENT")] = .error () :=
  ⟨rfl, rfl, rfl⟩

/-- C1 (amended): exceptions inside the registry and local-metadata phases
are caught per phase and no ERROR verdict is ever recorded — `deearth`
never writes the value "ERROR" into the cache — and an exception escaping
`deearth` for one file makes the whole batch operation raise instead of
continuing with the other files. -/
theorem c1_amended_no_error_and_abort :
    (∀ name env c k, lookupKV (deearth name env c).cache k = some "ERROR" →
      lookupKV c k = some "ERROR") ∧
    (∀ envs f rest c, (deearth f (envs f) c).outcome = .error () →
      deearth_main envs (f :: rest) c = .error ()) := by
  constructor
  · intro name env c k h
    exact deearth_no_error h
  · intro envs f rest c h
    simp [deearth_main, h]

theorem c1_witness :
    lookupKV [("x.jar", "ERROR")] "x.jar" = some "ERROR" ∧
    deearth_main (fun _ => ⟨none, .exc, .exc, .exc, false⟩)
        ["e.jar"] [("e.jar", "CLIENT")] = .error () :=
  ⟨c1_amended_no_error_and_abort.1 "a.jar" ⟨none, .exc, .exc, .exc, true⟩
      [("x.jar", "ERROR")] "x.jar" (by decide),
   c1_amended_no_error_and_abort.2 (fun _ => ⟨none, .exc, .exc, .exc, false⟩)
      "e.jar" [] [("e.jar", "CLIENT")] rfl⟩

@[simp] theorem countRequests_nil : countRequests [] = 0 := rfl

@[simp] theorem countRequests_cons_request (u : String) (evs : List Ev) :
    countRequests (.request u :: evs) = countRequests evs + 1 := by
  simp [countRequests, List.countP_cons]

@[simp] theorem countRequests_cons_sleep (s : Nat) (evs : List Ev) :
    countRequests (.sleep s :: evs) = countRequests evs := by
  simp [countRequests, List.countP_cons]

theorem worker_from_all_fail (cfg : DLConfig) (oracle : Nat → String → AttemptRes)
    (hfail : ∀ i u, oracle i u ≠ .success) :
    ∀ rem i u, i + rem = cfg.retries →
      countRequests (download_worker_from cfg oracle rem i u).1 = rem ∧
      (download_worker_from cfg oracle rem i u).2 = false := by
  intro rem
  induction rem with
  | zero =>
      intro i u _
      simp [download_worker_from]
  | succ n ih =>
      intro i u hinv
      cases ho : oracle i u with
      | success => exact absurd ho (hfail i u)
      | httpError s =>
          cases hm : mirror_fallback cfg u with
          | some official =>
              have h2 := ih (i + 1) official (by omega)
              simp [download_worker_from, ho, hm, h2.1, h2.2]
          | none =>
              by_cases hl : i < cfg.retries - 1
              · have h2 := ih (i + 1) u (by omega)
                simp [download_worker_from, ho, hm, hl, h2.1, h2.2]
              · have hn : n = 0 := by omega
                subst hn
                simp [download_worker_from, ho, hm, hl]
      | netError =>
          by_cases hl : i < cfg.retries - 1
          · have h2 := ih (i + 1) u (by omega)
            simp [download_worker_from, ho, hl, h2.1, h2.2]
          · have hn : n = 0 := by omega
            subst hn
            simp [download_worker_from, ho, hl]

/-- C4: a job whose every attempt fails issues exactly `retries` HTTP
requests (`download.retries` defaults to 3) before ending in failure; a
mirror-to-origin rewrite consumes an attempt from this same counter (the
request count stays `retries` whatever mix of rewrites and ordinary
failures occurs); and between two consecutive ordinary attempts on the
same URL the worker sleeps exactly `2 ^ attemptIndex` seconds, with the
attempt index 0-based. -/
theorem c4_retry_budget (cfg : DLConfig) (oracle : Nat → String → AttemptRes)
    (url : String) (hfail : ∀ i u, oracle i u ≠ .success) :
    defaultDLConfig.retries = 3 ∧
    (download_worker cfg oracle url).2 = false ∧
    countRequests (download_worker cfg oracle url).1 = cfg.retries ∧
    (∀ i u rem, i + (rem + 2) = cfg.retries →
      (oracle i u = .netError ∨
        (∃ s, oracle i u = .httpError s ∧ mirror_fallback cfg u = none)) →
      download_worker_from cfg oracle (rem + 2) i u
        = (.request u :: .sleep (2 ^ i)
              :: (download_worker_from cfg oracle (rem + 1) (i + 1) u).1,
           (download_worker_from cfg oracle (rem + 1) (i + 1) u).2)) := by
  refine ⟨rfl, ?_, ?_, ?_⟩
  · exact (worker_from_all_fail cfg oracle hfail cfg.retries 0 url (by omega)).2
  · exact (worker_from_all_fail cfg oracle hfail cfg.retries 0 url (by omega)).1
  · intro i u rem hinv hord
    have hl : i < cfg.retries - 1 := by omega
    rcases hord with ho | ⟨s, ho, hm⟩
    · simp [download_worker_from, ho, hl]
    · simp [download_worker_from, ho, hm, hl]

theorem c4_witness :
    (download_worker ⟨3, true⟩ (fun _ _ => .netError) "https://x/a.jar").2 = false ∧
    countRequests
      (download_worker ⟨3, true⟩ (fun _ _ => .netError) "https://x/a.jar").1 = 3 ∧
    download_worker_from ⟨3, true⟩ (fun _ _ => .netError) 3 0 "https://x/a.jar"
      = (.request "https://x/a.jar" :: .sleep 1
            :: (download_worker_from ⟨3, true⟩ (fun _ _ => .netError)
                  2 1 "https://x/a.jar").1,
         (download_worker_from ⟨3, true⟩ (fun _ _ => .netError)
            2 1 "https://x/a.jar").2) := by
  have h := c4_retry_budget ⟨3, true⟩ (fun _ _ => .netError) "https://x/a.jar"
    (fun _ _ hh => nomatch hh)
  exact ⟨h.2.1, h.2.2.1, h.2.2.2 0 "https://x/a.jar" 1 rfl (Or.inl rfl)⟩

theorem insertKV_frame {c : Cache} {k v j : String} (h : j ≠ k) :
    lookupKV (insertKV c k v) j = lookupKV c j :=
  lookupKV_insertKV_ne c k v j h

theorem deearth_hit (name : String) (env : FileEnv) (c : Cache) (v : String)
    (hc : lookupKV c name = some v) (hmv : env.moveOk = true) :
    deearth name env c
      = if v = "CLIENT" then ⟨c, true, 0, none, .ok (some name)⟩
        else ⟨c, false, 0, none, .ok none⟩ := by
  simp only [deearth, hc, hmv]
  by_cases hv : v = "CLIENT" <;> simp [hv]

theorem finishPhase4_frame {name : String} {ic mv : Bool} {c : Cache} {reqs : Nat}
    {k : String} (hk : k ≠ name) :
    lookupKV (finishPhase4 name ic mv c reqs).cache k = lookupKV c k := by
  unfold finishPhase4
  split_ifs <;> simp [insertKV_frame hk]

theorem phase4_frame {name : String} {zi : Option ModInfo} {mv ic : Bool}
    {c : Cache} {reqs : Nat} {k : String} (hk : k ≠ name) :
    lookupKV (phase4 name zi mv ic c reqs).cache k = lookupKV c k := by
  cases zi with
  | none => simp [phase4, insertKV_frame hk]
  | some mi =>
      cases mi with
      | emptyInfo => simp [phase4, insertKV_frame hk]
      | forge mods deps =>
          cases mods with
          | nil => simp [phase4, finishPhase4_frame hk]
          | cons m rest => simp [phase4, finishPhase4_frame hk]
      | fabric id envf => simp [phase4, finishPhase4_frame hk]

theorem phase3_frame {name : String} {zi : Option ModInfo} {de : RegResp}
    {mv : Bool} {mod_id : String} {ic : Bool} {c : Cache} {reqs : Nat}
    {k : String} (hk : k ≠ name) :
    lookupKV (phase3 name zi de mv mod_id ic c reqs).cache k = lookupKV c k := by
  cases de <;>
    (simp only [phase3]
     split_ifs <;> simp [phase4_frame hk, insertKV_frame hk])

theorem phase2_frame {name : String} {zi : Option ModInfo} {mr de : RegResp}
    {mv : Bool} {mod_id : String} {c : Cache} {k : String} (hk : k ≠ name) :
    lookupKV (phase2 name zi mr de mv mod_id c).cache k = lookupKV c k := by
  cases mr <;>
    (simp only [phase2]
     try split_ifs
     all_goals simp [phase3_frame hk, insertKV_frame hk])

theorem deearth_frame {name : String} {env : FileEnv} {c : Cache} {k : String}
    (hk : k ≠ name) :
    lookupKV (deearth name env c).cache k = lookupKV c k := by
  obtain ⟨zi, cf, mr, de, mv⟩ := env
  cases hl : lookupKV c name with
  | some v =>
      simp only [deearth, hl]
      split_ifs <;> rfl
  | none =>
      simp only [deearth, hl]
      split_ifs <;> simp [phase2_frame hk, insertKV_frame hk]

theorem finishPhase4_run (name : String) (ic : Bool) (c : Cache) (reqs : Nat) :
    ∃ v, lookupKV (finishPhase4 name ic true c reqs).cache name = some v ∧
      (finishPhase4 name ic true c reqs).moved = (v == "CLIENT") ∧
      (finishPhase4 name ic true c reqs).outcome
        = .ok (if (finishPhase4 name ic true c reqs).moved
               then some name else none) := by
  cases ic with
  | false => exact ⟨"UNIVERSAL", lookupKV_insertKV_self c name "UNIVERSAL", rfl, rfl⟩
  | true => exact ⟨"CLIENT", lookupKV_insertKV_self c name "CLIENT", rfl, rfl⟩

theorem phase4_run (name : String) (zi : Option ModInfo) (ic : Bool) (c : Cache)
    (reqs : Nat) :
    ∃ v, lookupKV (phase4 name zi true ic c reqs).cache name = some v ∧
      (phase4 name zi true ic c reqs).moved = (v == "CLIENT") ∧
      (phase4 name zi true ic c reqs).outcome
        = .ok (if (phase4 name zi true ic c reqs).moved
               then some name else none) := by
  cases zi with
  | none => exact ⟨"UNKNOWN", lookupKV_insertKV_self c name "UNKNOWN", rfl, rfl⟩
  | some mi =>
      cases mi with
      | emptyInfo =>
          exact ⟨"UNIVERSAL", lookupKV_insertKV_self c name "UNIVERSAL", rfl, rfl⟩
      | forge mods deps =>
          cases mods with
          | nil => exact finishPhase4_run name ic c reqs
          | cons m rest =>
              exact finishPhase4_run name
                (ic || (depsFor deps (m.getD "")).any forgeDepClient) c reqs
      | fabric id envf =>
          exact finishPhase4_run name (ic || envf == some "client") c reqs

theorem phase3_run (name : String) (zi : Option ModInfo) (de : RegResp)
    (mod_id : String) (ic : Bool) (c : Cache) (reqs : Nat) :
    ∃ v, lookupKV (phase3 name zi de true mod_id ic c reqs).cache name = some v ∧
      (phase3 name zi de true mod_id ic c reqs).moved = (v == "CLIENT") ∧
      (phase3 name zi de true mod_id ic c reqs).outcome
        = .ok (if (phase3 name zi de true mod_id ic c reqs).moved
               then some name else none) := by
  by_cases hm : mod_id = ""
  · simpa only [phase3, if_pos hm] using phase4_run name zi ic c reqs
  · cases de with
    | exc => simpa only [phase3, if_neg hm] using phase4_run name zi ic c (reqs + 1)
    | notFound => simpa only [phase3, if_neg hm] using phase4_run name zi ic c (reqs + 1)
    | found cs ss =>
        by_cases hcl : (ic || sideRule cs ss) = true
        · refine ⟨"CLIENT", ?_, ?_, ?_⟩ <;>
            simp [phase3, hm, hcl, lookupKV_insertKV_self]
        · refine ⟨"UNIVERSAL", ?_, ?_, ?_⟩ <;>
            simp [phase3, hm, hcl, lookupKV_insertKV_self]

theorem phase2_run (name : String) (zi : Option ModInfo) (mr de : RegResp)
    (mod_id : String) (c : Cache) :
    ∃ v, lookupKV (phase2 name zi mr de true mod_id c).cache name = some v ∧
      (phase2 name zi mr de true mod_id c).moved = (v == "CLIENT") ∧
      (phase2 name zi mr de true mod_id c).outcome
        = .ok (if (phase2 name zi mr de true mod_id c).moved
               then some name else none) := by
  cases mr with
  | exc => simpa only [phase2] using phase3_run name zi de mod_id false c 2
  | notFound => simpa only [phase2] using phase3_run name zi de mod_id false c 2
  | found cs ss =>
      by_cases hcl : sideRule cs ss = true
      · refine ⟨"CLIENT", ?_, ?_, ?_⟩ <;>
          simp [phase2, hcl, lookupKV_insertKV_self]
      · refine ⟨"UNIVERSAL", ?_, ?_, ?_⟩ <;>
          simp [phase2, hcl, lookupKV_insertKV_self]

theorem deearth_run (name : String) (env : FileEnv) (c : Cache)
    (hmv : env.moveOk = true) :
    ∃ v, lookupKV (deearth name env c).cache name = some v ∧
      (deearth name env c).moved = (v == "CLIENT") ∧
      (deearth name env c).outcome
        = .ok (if (deearth name env c).moved then some name else none) := by
  obtain ⟨zi, cf, mr, de, mv⟩ := env
  simp only at hmv
  subst hmv
  cases hl : lookupKV c name with
  | some v =>
      by_cases hv : v = "CLIENT"
      · subst hv
        refine ⟨"CLIENT", ?_, ?_, ?_⟩ <;> simp [deearth, hl]
      · refine ⟨v, ?_, ?_, ?_⟩ <;> simp [deearth, hl, hv]
  | none =>
      by_cases hknown : extract_mod_id zi ∈ KNOWN_UNIVERSAL_MODS
      · refine ⟨"UNIVERSAL", ?_, ?_, ?_⟩ <;>
          simp [deearth, hl, hknown, lookupKV_insertKV_self]
      · obtain ⟨v, h1, h2, h3⟩ := phase2_run name zi mr de (extract_mod_id zi) c
        refine ⟨v, ?_, ?_, ?_⟩ <;>
          simp [deearth, hl, hknown, h1, h2, h3]

theorem c3_aux (envs envs' : String → FileEnv)
    (hmv : ∀ f, (envs f).moveOk = true) (hmv' : ∀ f, (envs' f).moveOk = true) :
    ∀ (files : List String) (c₀ : Cache), files.Nodup →
      ∃ moved c₁ reqs,
        deearth_main envs files c₀ = .ok (moved, c₁, reqs) ∧
        deearth_main envs' files c₁ = .ok (moved, c₁, 0) ∧
        (∀ k, k ∉ files → lookupKV c₁ k = lookupKV c₀ k) ∧
        (∀ f ∈ files, ∃ v, lookupKV c₁ f = some v ∧
          (deearth f (envs' f) c₁).moved = (v == "CLIENT") ∧
          (deearth f (envs' f) c₁).requests = 0 ∧
          (deearth f (envs' f) c₁).cache = c₁) := by
  intro files
  induction files with
  | nil =>
      intro c₀ _
      exact ⟨[], c₀, 0, rfl, rfl, fun k _ => rfl, fun f hf => absurd hf (by simp)⟩
  | cons f rest ih =>
      intro c₀ hnd
      rw [List.nodup_cons] at hnd
      obtain ⟨hf_rest, hnd_rest⟩ := hnd
      obtain ⟨v_f, hv1, hv2, hv3⟩ := deearth_run f (envs f) c₀ (hmv f)
      obtain ⟨movedR, c₁, reqsR, hA, hD, hB, hC⟩ :=
        ih (deearth f (envs f) c₀).cache hnd_rest
      have hc₁f : lookupKV c₁ f = some v_f := by
        rw [hB f hf_rest, hv1]
      have hhit := deearth_hit f (envs' f) c₁ v_f hc₁f (hmv' f)
      refine ⟨(if (deearth f (envs f) c₀).moved then f :: movedR else movedR),
        c₁, (deearth f (envs f) c₀).requests + reqsR, ?_, ?_, ?_, ?_⟩
      · simp only [deearth_main, hv3, hA]
        cases hmoved : (deearth f (envs f) c₀).moved <;> simp [hmoved]
      · by_cases hvC : v_f = "CLIENT"
        · simp only [deearth_main, hhit, if_pos hvC, hD]
          simp [hv2, hvC]
        · simp only [deearth_main, hhit, if_neg hvC, hD]
          simp [hv2, hvC]
      · intro k hk
        simp only [List.mem_cons, not_or] at hk
        obtain ⟨hk1, hk2⟩ := hk
        rw [hB k hk2, deearth_frame hk1]
      · intro g hg
        rcases List.mem_cons.mp hg with rfl | hg_rest
        · refine ⟨v_f, hc₁f, ?_, ?_, ?_⟩ <;>
            (rw [hhit]; by_cases hvC : v_f = "CLIENT" <;> simp [hvC])
        · exact hC g hg_rest

/-- C3: with the cache written by a first batch run loaded at the start of a
second run over the same distinct file names (moves succeeding in both
runs), the second run performs zero network requests and relocates exactly
the files the first run relocated; every file name is in the saved cache
and short-circuits at the cache step with zero requests and an unchanged
cache, moving the file iff its cached verdict is the string "CLIENT". -/
theorem c3_idempotent_cache_replay (envs envs' : String → FileEnv)
    (files : List String) (c₀ : Cache)
    (hmv : ∀ f, (envs f).moveOk = true) (hmv' : ∀ f, (envs' f).moveOk = true)
    (hnd : files.Nodup) :
    ∃ moved c₁ reqs,
      deearth_main envs files c₀ = .ok (moved, c₁, reqs) ∧
      deearth_main envs' files c₁ = .ok (moved, c₁, 0) ∧
      ∀ f ∈ files, ∃ v, lookupKV c₁ f = some v ∧
        (deearth f (envs' f) c₁).moved = (v == "CLIENT") ∧
        (deearth f (envs' f) c₁).requests = 0 ∧
        (deearth f (envs' f) c₁).cache = c₁ := by
  obtain ⟨moved, c₁, reqs, hA, hD, _, hC⟩ :=
    c3_aux envs envs' hmv hmv' files c₀ hnd
  exact ⟨moved, c₁, reqs, hA, hD, hC⟩

theorem c3_witness :
    ∃ moved c₁ reqs,
      deearth_main (fun _ => ⟨none, .exc, .exc, .exc, true⟩) ["a.jar"] []
        = .ok (moved, c₁, reqs) ∧
      deearth_main (fun _ => ⟨none, .exc, .exc, .exc, true⟩) ["a.jar"] c₁
        = .ok (moved, c₁, 0) ∧
      ∀ f ∈ ["a.jar"], ∃ v, lookupKV c₁ f = some v ∧
        (deearth f ((fun _ => (⟨none, .exc, .exc, .exc, true⟩ : FileEnv)) f)
            c₁).moved = (v == "CLIENT") ∧
        (deearth f ((fun _ => (⟨none, .exc, .exc, .exc, true⟩ : FileEnv)) f)
            c₁).requests = 0 ∧
        (deearth f ((fun _ => (⟨none, .exc, .exc, .exc, true⟩ : FileEnv)) f)
            c₁).cache = c₁ :=
  c3_idempotent_cache_replay (fun _ => ⟨none, .exc, .exc, .exc, true⟩)
    (fun _ => ⟨none, .exc, .exc, .exc, true⟩) ["a.jar"] []
    (fun _ => rfl) (fun _ => rfl) (by simp)

end MCPacker

